import Mathlib

/-!
# Verification of the wgpu-experiments camera / render-state logic

Shallow embedding of the Rust sources of `V-Sekai/wgpu-experiments`:

* `src/camera.rs` — `Camera`, `Camera::update`, `Camera::proj_view`,
  the constant `OPENGL_TO_WGPU_M`;
* `src/render_state.rs` — `RenderState::new`, `::update`, `::render`,
  `::resize`, `::size` (the textured-quad + camera variant);
* `src/lib.rs` — the triangle variant `RenderState::render`, `::resize`,
  and the event loop `run`.

Scalars (`f32` in the source) are embedded as `ℚ`: every claim below is
about the structure of the computations (which field is read, which
branch is taken, in which order effects happen), not about rounding, and
all concrete constants involved (`0.5`, `1.0`) are exactly representable.
GPU-side effects (surface configuration, buffer writes, render-pass
commands) are embedded as explicit data: configuration logs and command
traces.
-/

namespace WgpuExperiments

abbrev Scalar := ℚ

/-- Matrices 4×4 of scalars, the embedding of `nalgebra::Matrix4<f32>`. -/
abbrev Mat4 := Matrix (Fin 4) (Fin 4) Scalar

/-- Matrices 3×3 of scalars, the rotation part of an isometry. -/
abbrev Mat3 := Matrix (Fin 3) (Fin 3) Scalar

abbrev Vec3 := Fin 3 → Scalar

abbrev Vec4 := Fin 4 → Scalar

/-- Embedding of `nalgebra::IsometryMatrix3<f32>`: a rotation matrix
together with a translation vector, acting as `p ↦ R p + t`. -/
structure Iso3 where
  rotation : Mat3
  translation : Vec3

/-- Left multiplication `Translation3::new(x, y, z) * iso` in nalgebra:
the rotation part is kept and the translation vector is shifted. -/
def translationMul (t : Vec3) (i : Iso3) : Iso3 :=
  { rotation := i.rotation, translation := fun k => t k + i.translation k }

/-- Homogeneous 4×4 matrix of an isometry, the embedding of
`IsometryMatrix3::to_matrix`. -/
def Iso3.toMat4 (i : Iso3) : Mat4 :=
  Matrix.of
    ![![i.rotation 0 0, i.rotation 0 1, i.rotation 0 2, i.translation 0],
      ![i.rotation 1 0, i.rotation 1 1, i.rotation 1 2, i.translation 1],
      ![i.rotation 2 0, i.rotation 2 1, i.rotation 2 2, i.translation 2],
      ![0, 0, 0, 1]]

/-- The constant `OPENGL_TO_WGPU_M` of `src/camera.rs`, transcribed row
by row exactly as the `nalgebra::matrix!` macro reads its literal: the
macro is row-major, each `;`-separated line is one row of the matrix. -/
def openglToWgpuM : Mat4 :=
  Matrix.of
    ![![1, 0, 0, 0],
      ![0, 1, 0, 0],
      ![0, 0, 1/2, 0],
      ![0, 0, 1/2, 1]]

/-- The held-key state read by `Camera::update` through
`WinitInputHelper::key_held`: one flag per key the code queries. -/
structure InputState where
  keyW : Bool
  keyS : Bool
  keyA : Bool
  keyD : Bool
  keyQ : Bool
  keyE : Bool

/-- Embedding of the `Camera` struct of `src/camera.rs`.  The field
`proj` holds the matrix `Perspective3::as_matrix` returns. -/
structure Camera where
  view : Iso3
  proj : Mat4
  speed : Scalar

/-- Embedding of `Camera::proj_view`: `OPENGL_TO_WGPU_M * self.proj.as_matrix() * self.view.to_matrix()`. -/
def Camera.proj_view (c : Camera) : Mat4 :=
  openglToWgpuM * c.proj * c.view.toMat4

/-- Embedding of `Camera::update`, transcribed from `src/camera.rs` lines 28–52:
three if-chains computing `z` from W/S, `x` from A/D, `y` from Q/E,
then `self.view = Translation3::new(x, y, z) * self.view`. -/
def Camera.update (c : Camera) (input : InputState) : Camera :=
  let z : Scalar := if input.keyW then c.speed else if input.keyS then -c.speed else 0
  let x : Scalar := if input.keyA then c.speed else if input.keyD then -c.speed else 0
  let y : Scalar := if input.keyQ then c.speed else if input.keyE then -c.speed else 0
  { c with view := translationMul ![x, y, z] c.view }

/-- Spec-side displacement for one key pair, following the words of the
spec and of claim C1: `+speed` if the first key of the pair is held,
`-speed` if the second is held, `0` if neither is held (the conditions
read in order, as the claim lists them). -/
def specAxisDisp (first second : Bool) (speed : Scalar) : Scalar :=
  if first then speed else if second then -speed else 0

/-- C1: `Camera::update` reads the three held-key pairs (W/S, A/D, Q/E),
computes one signed displacement per axis (`+speed` / `-speed` / `0`),
and replaces the view isometry by left-multiplying it with the
translation built from those three scalars. -/
theorem camera_update_is_spec_translation (c : Camera) (input : InputState) :
    Camera.update c input =
      { c with
        view := translationMul
          ![specAxisDisp input.keyA input.keyD c.speed,
            specAxisDisp input.keyQ input.keyE c.speed,
            specAxisDisp input.keyW input.keyS c.speed] c.view } := by
  rfl

/-- C5: `Camera::update` is a translation-only change: the rotation part
of the view isometry, the projection and the speed are unchanged. -/
theorem camera_update_translation_only (c : Camera) (input : InputState) :
    (Camera.update c input).view.rotation = c.view.rotation ∧
    (Camera.update c input).proj = c.proj ∧
    (Camera.update c input).speed = c.speed := by
  exact ⟨rfl, rfl, rfl⟩

/-- C10: when both keys of an opposite pair are held, the first
(positive-direction) key wins: the displacement on that axis is
`+speed`, never `0` and never `-speed`. -/
theorem camera_update_positive_key_priority (c : Camera) (input : InputState) :
    (input.keyW = true → input.keyS = true →
      (Camera.update c input).view.translation 2 = c.speed + c.view.translation 2) ∧
    (input.keyA = true → input.keyD = true →
      (Camera.update c input).view.translation 0 = c.speed + c.view.translation 0) ∧
    (input.keyQ = true → input.keyE = true →
      (Camera.update c input).view.translation 1 = c.speed + c.view.translation 1) := by
  refine ⟨fun hw _ => ?_, fun ha _ => ?_, fun hq _ => ?_⟩
  · simp [Camera.update, translationMul, hw]
  · simp [Camera.update, translationMul, ha]
  · simp [Camera.update, translationMul, hq]

/-- A concrete camera used by the closed witness statements. -/
def testCamera : Camera :=
  { view := { rotation := 1, translation := ![5, 6, 7] }
    proj := 1
    speed := 1/5 }

/-- All six tracked keys held at once. -/
def allKeysHeld : InputState :=
  { keyW := true, keyS := true, keyA := true, keyD := true, keyQ := true, keyE := true }

/-- Witness for C10 at a concrete camera with every key held. -/
theorem camera_update_positive_key_priority_witness :
    (Camera.update testCamera allKeysHeld).view.translation 2 = 1/5 + 7 ∧
    (Camera.update testCamera allKeysHeld).view.translation 0 = 1/5 + 5 ∧
    (Camera.update testCamera allKeysHeld).view.translation 1 = 1/5 + 6 := by
  obtain ⟨h1, h2, h3⟩ := camera_update_positive_key_priority testCamera allKeysHeld
  exact ⟨h1 rfl rfl, h2 rfl rfl, h3 rfl rfl⟩

/-- Embedding of `winit::dpi::PhysicalSize<u32>`. -/
structure PhysicalSize where
  width : Nat
  height : Nat
deriving DecidableEq

/-- Embedding of `wgpu::SurfaceConfiguration`: the two dimensions the
code mutates plus the fields it never touches after construction
(usage, format, present mode, alpha mode), kept abstract as numbers. -/
structure SurfaceConfig where
  usage : Nat
  format : Nat
  width : Nat
  height : Nat
  presentMode : Nat
  alphaMode : Nat
deriving DecidableEq

/-- Embedding of the `RenderState` struct of `src/render_state.rs`
(the textured-quad + camera variant).  GPU-side state is explicit:
`cameraBuf` is the current content of the camera uniform buffer (the
matrix the last `write_buffer` at offset 0 stored, covering the whole
buffer), and `configureLog` records every `surface.configure` call with
the configuration it was given. -/
structure RenderState where
  config : SurfaceConfig
  numIndices : Nat
  camera : Camera
  cameraBuf : Mat4
  configureLog : List SurfaceConfig
  fps : Scalar

/-- Embedding of `RenderState::update` from `src/render_state.rs` lines 292–299:
first `self.camera.update(input)`, then
`queue.write_buffer(&self.camera_buf, 0, cast(&[self.camera.proj_view()]))`
with the already-updated camera. -/
def RenderState.update (s : RenderState) (input : InputState) : RenderState :=
  let camera := s.camera.update input
  { s with camera := camera, cameraBuf := camera.proj_view }

/-- Embedding of `RenderState::resize` from `src/render_state.rs` lines 369–376:
return early when both dimensions are 0, otherwise set `config.width`
and `config.height` and call `surface.configure(&device, &config)`. -/
def RenderState.resize (s : RenderState) (size : PhysicalSize) : RenderState :=
  if size.width = 0 ∧ size.height = 0 then s
  else
    let config := { s.config with width := size.width, height := size.height }
    { s with config := config, configureLog := s.configureLog ++ [config] }

/-- Embedding of `RenderState::size`: reads the size back from the configuration. -/
def RenderState.size (s : RenderState) : PhysicalSize :=
  { width := s.config.width, height := s.config.height }

/-- C2: after `RenderState::update(input)` the camera uniform buffer
holds exactly `proj_view()` of the already-updated camera — the camera
update happens first, the upload second, and the uploaded matrix is the
one computed from the updated camera. -/
theorem render_state_update_uploads_updated_proj_view
    (s : RenderState) (input : InputState) :
    (RenderState.update s input).camera = Camera.update s.camera input ∧
    (RenderState.update s input).cameraBuf =
      Camera.proj_view (Camera.update s.camera input) := by
  exact ⟨rfl, rfl⟩

/-- C9: `resize` is a no-op exactly when both dimensions are 0; for any
other size it writes both dimensions into the configuration, issues one
`surface.configure` with that configuration, changes nothing else, and
afterwards `size()` returns the given size. -/
theorem render_state_resize_spec (s : RenderState) (sz : PhysicalSize) :
    (sz.width = 0 ∧ sz.height = 0 → RenderState.resize s sz = s) ∧
    (¬(sz.width = 0 ∧ sz.height = 0) →
      (RenderState.resize s sz).config =
        { s.config with width := sz.width, height := sz.height } ∧
      (RenderState.resize s sz).configureLog =
        s.configureLog ++ [{ s.config with width := sz.width, height := sz.height }] ∧
      (RenderState.resize s sz).numIndices = s.numIndices ∧
      (RenderState.resize s sz).camera = s.camera ∧
      (RenderState.resize s sz).cameraBuf = s.cameraBuf ∧
      (RenderState.resize s sz).fps = s.fps ∧
      RenderState.size (RenderState.resize s sz) = sz) := by
  constructor
  · intro h
    simp [RenderState.resize, h]
  · intro h
    simp [RenderState.resize, RenderState.size, h]

/-- A concrete render state used by the closed witness statements. -/
def testRenderState : RenderState :=
  { config :=
      { usage := 16, format := 3, width := 800, height := 600
        presentMode := 0, alphaMode := 0 }
    numIndices := 6
    camera := testCamera
    cameraBuf := 1
    configureLog := []
    fps := 0 }

/-- Witness for C9 at the concrete state: the zero size is a no-op and
a size with one zero dimension still resizes and reconfigures. -/
theorem render_state_resize_spec_witness :
    RenderState.resize testRenderState { width := 0, height := 0 } = testRenderState ∧
    RenderState.size (RenderState.resize testRenderState { width := 0, height := 5 }) =
      { width := 0, height := 5 } := by
  constructor
  · exact (render_state_resize_spec testRenderState { width := 0, height := 0 }).1
      (by exact ⟨rfl, rfl⟩)
  · exact ((render_state_resize_spec testRenderState { width := 0, height := 5 }).2
      (by simp)).2.2.2.2.2.2

/-- Embedding of `wgpu::SurfaceError` (wgpu 0.15): the four variants
`get_current_texture` can return. -/
inductive SurfaceError
  | timeout
  | outdated
  | lost
  | outOfMemory
deriving DecidableEq

/-- The GPU-facing commands `render()` issues, in the order the source
issues them; `submit n` records a submission of `n` command buffers. -/
inductive GpuCmd
  | getCurrentTexture
  | createView
  | createEncoder
  | beginRenderPass
  | setPipeline
  | setVertexBuffer (slot : Nat)
  | setIndexBuffer
  | setBindGroup (index : Nat)
  | drawIndexed (count : Nat)
  | finishEncoder
  | submit (buffers : Nat)
  | present
deriving DecidableEq

/-- Embedding of `RenderState::render` of `src/render_state.rs` lines 301–367 as a
GPU command trace.  The FPS-smoothing block at the top touches only
CPU-side fields and the window title and issues no GPU command, so it
does not appear in the trace.  `acquire` is the outcome of
`surface.get_current_texture()`; on error the `?` operator returns it
at once, so nothing after the acquisition is executed. -/
def RenderState.renderTrace (s : RenderState)
    (acquire : Except SurfaceError Unit) : List GpuCmd × Option SurfaceError :=
  match acquire with
  | Except.error e => ([GpuCmd.getCurrentTexture], some e)
  | Except.ok _ =>
    ([GpuCmd.getCurrentTexture, GpuCmd.createView, GpuCmd.createEncoder,
      GpuCmd.beginRenderPass, GpuCmd.setPipeline, GpuCmd.setVertexBuffer 0,
      GpuCmd.setIndexBuffer, GpuCmd.setBindGroup 0, GpuCmd.setBindGroup 1,
      GpuCmd.drawIndexed s.numIndices, GpuCmd.finishEncoder, GpuCmd.submit 1,
      GpuCmd.present], none)

/-- Embedding of the `RenderState` struct of `src/lib.rs` (the indexed
triangle variant, which has no texture and no camera). -/
structure TriRenderState where
  config : SurfaceConfig
  numIndices : Nat
  configureLog : List SurfaceConfig

/-- Embedding of `RenderState::render` of `src/lib.rs` lines 217–261 as a GPU
command trace: same single path, but the render pass sets no bind
group at all. -/
def TriRenderState.renderTrace (s : TriRenderState)
    (acquire : Except SurfaceError Unit) : List GpuCmd × Option SurfaceError :=
  match acquire with
  | Except.error e => ([GpuCmd.getCurrentTexture], some e)
  | Except.ok _ =>
    ([GpuCmd.getCurrentTexture, GpuCmd.createView, GpuCmd.createEncoder,
      GpuCmd.beginRenderPass, GpuCmd.setPipeline, GpuCmd.setVertexBuffer 0,
      GpuCmd.setIndexBuffer, GpuCmd.drawIndexed s.numIndices,
      GpuCmd.finishEncoder, GpuCmd.submit 1, GpuCmd.present], none)

/-- Embedding of `RenderState::resize` of `src/lib.rs` lines 263–270 (textually
identical to the one in `src/render_state.rs`). -/
def TriRenderState.resize (s : TriRenderState) (size : PhysicalSize) : TriRenderState :=
  if size.width = 0 ∧ size.height = 0 then s
  else
    let config := { s.config with width := size.width, height := size.height }
    { s with config := config, configureLog := s.configureLog ++ [config] }

/-- Embedding of `RenderState::size` of `src/lib.rs` lines 272–277. -/
def TriRenderState.size (s : TriRenderState) : PhysicalSize :=
  { width := s.config.width, height := s.config.height }

/-- What the event loop tells winit to do after an iteration. -/
inductive LoopControl
  | keepRunning
  | exitLoop
deriving DecidableEq

/-- Log lines the render-error match emits. -/
inductive LogEvent
  | loggedError
  | loggedWarning
deriving DecidableEq

/-- The `match state.render(&game_state)` block of `run` in
`src/lib.rs` lines 357–368: `Ok` does nothing, `Lost` calls
`state.resize(state.size())`, `OutOfMemory` logs an error and exits,
any other error logs a warning.  Returns the state after the block,
the control flow, and the log lines emitted. -/
def handleRenderResult (st : TriRenderState) (r : Option SurfaceError) :
    TriRenderState × LoopControl × List LogEvent :=
  match r with
  | none => (st, LoopControl.keepRunning, [])
  | some SurfaceError.lost =>
    (TriRenderState.resize st (TriRenderState.size st), LoopControl.keepRunning, [])
  | some SurfaceError.outOfMemory => (st, LoopControl.exitLoop, [LogEvent.loggedError])
  | some _ => (st, LoopControl.keepRunning, [LogEvent.loggedWarning])

/-- C3: per-frame error handling: `Lost` resizes with the current size
and continues, `OutOfMemory` exits, every other surface error is
logged and the iteration skipped with the state unchanged. -/
theorem run_render_error_handling (st : TriRenderState) :
    handleRenderResult st (some SurfaceError.lost) =
      (TriRenderState.resize st (TriRenderState.size st), LoopControl.keepRunning, []) ∧
    handleRenderResult st (some SurfaceError.outOfMemory) =
      (st, LoopControl.exitLoop, [LogEvent.loggedError]) ∧
    handleRenderResult st (some SurfaceError.timeout) =
      (st, LoopControl.keepRunning, [LogEvent.loggedWarning]) ∧
    handleRenderResult st (some SurfaceError.outdated) =
      (st, LoopControl.keepRunning, [LogEvent.loggedWarning]) ∧
    handleRenderResult st none = (st, LoopControl.keepRunning, []) := by
  exact ⟨rfl, rfl, rfl, rfl, rfl⟩

/-- Number of `setBindGroup` commands in a trace. -/
def countBindGroups (t : List GpuCmd) : Nat :=
  t.countP fun c => match c with
    | GpuCmd.setBindGroup _ => true
    | _ => false

/-- Number of draw calls in a trace. -/
def countDraws (t : List GpuCmd) : Nat :=
  t.countP fun c => match c with
    | GpuCmd.drawIndexed _ => true
    | _ => false

/-- Number of submissions in a trace. -/
def countSubmits (t : List GpuCmd) : Nat :=
  t.countP fun c => match c with
    | GpuCmd.submit _ => true
    | _ => false

/-- The sequence claim C4 describes, parameterised by the number of
bind groups the render pass binds before its single indexed draw. -/
def specRenderTrace (nBind : Nat) (numIndices : Nat) : List GpuCmd :=
  [GpuCmd.getCurrentTexture, GpuCmd.createView, GpuCmd.createEncoder,
    GpuCmd.beginRenderPass, GpuCmd.setPipeline, GpuCmd.setVertexBuffer 0,
    GpuCmd.setIndexBuffer]
  ++ (List.range nBind).map GpuCmd.setBindGroup
  ++ [GpuCmd.drawIndexed numIndices, GpuCmd.finishEncoder, GpuCmd.submit 1,
      GpuCmd.present]

/-- A concrete triangle-variant render state (3 indices, as in the
source constant `INDICES: &[u16] = &[0, 1, 2]`). -/
def testTriState : TriRenderState :=
  { config :=
      { usage := 16, format := 3, width := 800, height := 600
        presentMode := 0, alphaMode := 0 }
    numIndices := 3
    configureLog := [] }

/-- Counterexample to C4 as stated: in the triangle variant the render
pass binds no bind group at all, so the bind-group count of a
successful frame is 0, not one or two. -/
theorem render_bind_group_count_zero_in_triangle_variant :
    countBindGroups (TriRenderState.renderTrace testTriState (Except.ok ())).1 = 0 ∧
    ¬(1 ≤ countBindGroups (TriRenderState.renderTrace testTriState (Except.ok ())).1 ∧
      countBindGroups (TriRenderState.renderTrace testTriState (Except.ok ())).1 ≤ 2) := by
  exact ⟨rfl, by decide⟩

/-- C4 (amended): in every variant `render()` performs exactly the
single-path sequence — acquire (returning the error with nothing
encoded or submitted when acquisition fails), one encoder, one render
pass setting the fixed pipeline and binding zero to two bind groups
before one indexed draw, one submit, one present.  The camera variant
binds two bind groups, the triangle variant none. -/
theorem render_single_path_sequence (s : RenderState) (t : TriRenderState)
    (e : SurfaceError) :
    RenderState.renderTrace s (Except.error e) = ([GpuCmd.getCurrentTexture], some e) ∧
    TriRenderState.renderTrace t (Except.error e) = ([GpuCmd.getCurrentTexture], some e) ∧
    RenderState.renderTrace s (Except.ok ()) = (specRenderTrace 2 s.numIndices, none) ∧
    TriRenderState.renderTrace t (Except.ok ()) = (specRenderTrace 0 t.numIndices, none) ∧
    countBindGroups (RenderState.renderTrace s (Except.ok ())).1 = 2 ∧
    countBindGroups (TriRenderState.renderTrace t (Except.ok ())).1 = 0 ∧
    countDraws (RenderState.renderTrace s (Except.ok ())).1 = 1 ∧
    countDraws (TriRenderState.renderTrace t (Except.ok ())).1 = 1 ∧
    countSubmits (RenderState.renderTrace s (Except.ok ())).1 = 1 ∧
    countSubmits (TriRenderState.renderTrace t (Except.ok ())).1 = 1 := by
  exact ⟨rfl, rfl, rfl, rfl, rfl, rfl, rfl, rfl, rfl, rfl⟩

/-- The fallible startup steps of `RenderState::new`, in source order. -/
inductive StartupFailure
  | surfaceCreation
  | noAdapter
  | surfaceUnsupported
  | deviceAcquisition
deriving DecidableEq

/-- Outcomes the GPU environment hands to `RenderState::new`:
whether `create_surface` succeeds, whether `request_adapter` yields an
adapter, whether `adapter.is_surface_supported(&surface)` holds, and
whether `request_device` succeeds. -/
structure GpuEnv where
  surfaceOk : Bool
  adapterAvailable : Bool
  surfaceSupported : Bool
  deviceOk : Bool

/-- Embedding of `RenderState::new` of `src/render_state.rs` lines 38–91 (the same
fallible prefix appears in `src/lib.rs` lines 47–100): `create_surface(..)?`,
then `request_adapter(..).ok_or(..)?`, then
`if !adapter.is_surface_supported(&surface) then bail!`, then
`request_device(..)?`.  Everything after these four steps (surface
configuration, buffers, pipeline, camera) is infallible in the source
— it returns no `Err` — and is abstracted to `()` in the success
value; on any failure the function returns the error before any state
is assembled. -/
def renderStateNew (env : GpuEnv) : Except StartupFailure Unit :=
  if env.surfaceOk = false then Except.error StartupFailure.surfaceCreation
  else if env.adapterAvailable = false then Except.error StartupFailure.noAdapter
  else if env.surfaceSupported = false then Except.error StartupFailure.surfaceUnsupported
  else if env.deviceOk = false then Except.error StartupFailure.deviceAcquisition
  else Except.ok ()

/-- C6: `RenderState::new` returns an error exactly when one of the
four startup-acquisition steps fails, each failure mapped to the step
that caused it; otherwise it succeeds. -/
theorem render_state_new_errors_exactly_on_acquisition (env : GpuEnv) :
    ((renderStateNew env).isOk =
      (env.surfaceOk && env.adapterAvailable && env.surfaceSupported && env.deviceOk)) ∧
    (env.surfaceOk = false →
      renderStateNew env = Except.error StartupFailure.surfaceCreation) ∧
    (env.surfaceOk = true → env.adapterAvailable = false →
      renderStateNew env = Except.error StartupFailure.noAdapter) ∧
    (env.surfaceOk = true → env.adapterAvailable = true → env.surfaceSupported = false →
      renderStateNew env = Except.error StartupFailure.surfaceUnsupported) ∧
    (env.surfaceOk = true → env.adapterAvailable = true → env.surfaceSupported = true →
      env.deviceOk = false →
      renderStateNew env = Except.error StartupFailure.deviceAcquisition) := by
  rcases env with ⟨s, a, p, d⟩
  cases s <;> cases a <;> cases p <;> cases d <;>
    simp [renderStateNew, Except.isOk, Except.toBool]

/-- Witness for C6: an environment failing only at device acquisition
aborts with exactly that failure. -/
theorem render_state_new_errors_witness :
    renderStateNew
        { surfaceOk := true, adapterAvailable := true
          surfaceSupported := true, deviceOk := false } =
      Except.error StartupFailure.deviceAcquisition :=
  (render_state_new_errors_exactly_on_acquisition
    { surfaceOk := true, adapterAvailable := true
      surfaceSupported := true, deviceOk := false }).2.2.2.2 rfl rfl rfl rfl

/-- The per-iteration actions of the camera-variant event loop. -/
inductive FrameOp
  | pollInput
  | resizeSurface
  | cameraUpdate
  | uniformUpload
  | submitCommands
  | presentFrame
deriving DecidableEq

/-- Modelled from the spec: the `run` event loop of the camera variant
is not under `src/` — only the `RenderState` it drives
(`src/render_state.rs`) is.  Following the spec ("one event-loop
callback does input polling, camera update, buffer upload, and
submission in sequence", with the documented `Lost` / `OutOfMemory` /
other handling) and the structure of the `run` in `src/lib.rs`, one
callback invocation: polls input (returning when processing is not
complete), exits on a close request, resizes when the window was
resized, calls `state.update(input)` (camera update then uniform
upload), and renders — on success the frame is submitted and
presented, on a surface error nothing is submitted and the error is
handled as in C3.  Returns the state, the control flow and the trace
of actions performed. -/
def runIterationCam (inputDone closeRequested : Bool)
    (resized : Option PhysicalSize) (input : InputState)
    (acquire : Except SurfaceError Unit) (st : RenderState) :
    RenderState × LoopControl × List FrameOp :=
  if inputDone = false then (st, LoopControl.keepRunning, [FrameOp.pollInput])
  else if closeRequested = true then (st, LoopControl.exitLoop, [FrameOp.pollInput])
  else
    let resizeOps := match resized with
      | some _ => [FrameOp.resizeSurface]
      | none => []
    let st1 := match resized with
      | some sz => RenderState.resize st sz
      | none => st
    let st2 := RenderState.update st1 input
    let preOps := FrameOp.pollInput :: resizeOps ++ [FrameOp.cameraUpdate, FrameOp.uniformUpload]
    match acquire with
    | Except.ok _ =>
      (st2, LoopControl.keepRunning,
        preOps ++ [FrameOp.submitCommands, FrameOp.presentFrame])
    | Except.error SurfaceError.lost =>
      (RenderState.resize st2 (RenderState.size st2), LoopControl.keepRunning, preOps)
    | Except.error SurfaceError.outOfMemory => (st2, LoopControl.exitLoop, preOps)
    | Except.error _ => (st2, LoopControl.keepRunning, preOps)

/-- Projection of an iteration trace onto the four actions claim C7
lists: input polling, camera update, uniform upload, submission. -/
def keyFrameOps (t : List FrameOp) : List FrameOp :=
  t.filter fun op => match op with
    | FrameOp.pollInput => true
    | FrameOp.cameraUpdate => true
    | FrameOp.uniformUpload => true
    | FrameOp.submitCommands => true
    | _ => false

/-- Counterexample to C7 as stated: in an iteration where input
processing completes and no close is requested but the surface texture
is lost, no command submission happens at all. -/
theorem run_iteration_no_submission_on_lost :
    FrameOp.submitCommands ∉
      (runIterationCam true false none allKeysHeld
        (Except.error SurfaceError.lost) testRenderState).2.2 := by
  decide

/-- C7 (amended): in every iteration where input processing completes,
no close was requested, and the surface texture is acquired, the
callback performs input polling, the camera update, the uniform
upload, and command submission, in that sequence. -/
theorem run_iteration_sequence (resized : Option PhysicalSize)
    (input : InputState) (st : RenderState) :
    keyFrameOps
        (runIterationCam true false resized input (Except.ok ()) st).2.2 =
      [FrameOp.pollInput, FrameOp.cameraUpdate, FrameOp.uniformUpload,
        FrameOp.submitCommands] := by
  cases resized <;> rfl

/-- C8 (divergence of the code): the constant `OPENGL_TO_WGPU_M`
applied to the clip-space vector `(0, 0, 0, 1)` (with `w = 1 ≠ 0`)
yields normalized depth `0`, while the depth remap its own doc comment
describes — `(z/w + 1)/2`, taking the OpenGL range `[-1, 1]` onto the
WebGPU range `[0, 1]` — demands `1/2` there.  The `matrix!` literal is laid out for
a column-major constructor, so the built matrix is the transpose of
the intended conversion. -/
theorem opengl_to_wgpu_depth_diverges :
    Matrix.mulVec openglToWgpuM ![0, 0, 0, 1] 3 = 1 ∧
    Matrix.mulVec openglToWgpuM ![0, 0, 0, 1] 2 /
      Matrix.mulVec openglToWgpuM ![0, 0, 0, 1] 3 = 0 ∧
    (((0 : Scalar) / 1 + 1) / 2 = 1 / 2) ∧ (0 : Scalar) ≠ 1 / 2 := by
  refine ⟨?_, ?_, by norm_num, by norm_num⟩ <;>
    simp [openglToWgpuM, Matrix.mulVec, Matrix.dotProduct, Fin.sum_univ_four]

/-- The transpose of the constant — the matrix its layout was meant to
produce — does satisfy the documented remap: `w` and the normalized
`x`, `y` are preserved and the normalized depth becomes `(z/w + 1)/2`. -/
theorem opengl_to_wgpu_transpose_remaps_depth (v : Vec4) (hw : v 3 ≠ 0) :
    Matrix.mulVec openglToWgpuM.transpose v 3 = v 3 ∧
    Matrix.mulVec openglToWgpuM.transpose v 0 = v 0 ∧
    Matrix.mulVec openglToWgpuM.transpose v 1 = v 1 ∧
    Matrix.mulVec openglToWgpuM.transpose v 2 /
        Matrix.mulVec openglToWgpuM.transpose v 3 =
      (v 2 / v 3 + 1) / 2 := by
  refine ⟨?_, ?_, ?_, ?_⟩
  · simp [openglToWgpuM, Matrix.mulVec, Matrix.transpose_apply, Matrix.dotProduct,
      Fin.sum_univ_four, Matrix.cons_val_two, Matrix.cons_val_three,
      Matrix.vecHead, Matrix.vecTail]
  · simp [openglToWgpuM, Matrix.mulVec, Matrix.transpose_apply, Matrix.dotProduct,
      Fin.sum_univ_four, Matrix.cons_val_two, Matrix.cons_val_three,
      Matrix.vecHead, Matrix.vecTail]
  · simp [openglToWgpuM, Matrix.mulVec, Matrix.transpose_apply, Matrix.dotProduct,
      Fin.sum_univ_four, Matrix.cons_val_two, Matrix.cons_val_three,
      Matrix.vecHead, Matrix.vecTail]
  · simp [openglToWgpuM, Matrix.mulVec, Matrix.transpose_apply, Matrix.dotProduct,
      Fin.sum_univ_four, Matrix.cons_val_two, Matrix.cons_val_three,
      Matrix.vecHead, Matrix.vecTail]
    field_simp
    ring_nf
    tauto

end WgpuExperiments
